import Mathlib

/-!
Verification of the invoice-management server actions
(`authenticate`, `createInvoice`, `updateInvoice`, `deleteInvoice`)
against the repository's natural-language specification.

The actions are shallowly embedded as pure functions.  Side effects
(SQL execution, cache revalidation, redirect) are recorded in an event
trace.  A JavaScript number is `Option ℚ`, with `none` standing for
NaN; the builtin `Number(...)` coercion of the raw form string happens
outside the repository, so each embedded action receives the already
coerced value.  Whether the awaited SQL call succeeds or throws is an
external fact, passed in as a `dbOk : Bool` parameter.
-/

namespace Invoices

/-- JavaScript number that may be NaN: `none` is NaN, `some q` an ordinary value. -/
abbrev JSNum := Option ℚ

/-- The three form fields read from `Object.fromEntries(formData.entries())` by
`createInvoice` and `updateInvoice`; a field absent from the form is `none`.
`amount` is the result of the `Number(data.amount)` coercion. -/
structure RawForm where
  customerId : Option String
  amount : JSNum
  status : Option String
deriving DecidableEq

/-- Flattened per-field error messages, as in `validatedFields.error.flatten().fieldErrors`. -/
structure FieldErrors where
  customerId : List String
  amount : List String
  status : List String
deriving DecidableEq

/-- The data object of a successful `InvoiceSchema.safeParse`. -/
structure InvoiceData where
  customerId : String
  amount : ℚ
  status : String
deriving DecidableEq

/-- Result of `InvoiceSchema.safeParse`. -/
inductive ParseResult
  | success (data : InvoiceData)
  | failure (fieldErrors : FieldErrors)
deriving DecidableEq

/-- Field check for `customerId : z.string({ invalid_type_error: ... })`:
a present string is accepted, a missing field is rejected with Zod's
required-field message. -/
def parseCustomerId : Option String → Except (List String) String
  | some s => .ok s
  | none => .error ["Required"]

/-- Field check for `amount : z.coerce.number().gt(0, { message: ... })`:
NaN is rejected as not a number, a number not strictly greater than 0 is
rejected with the custom message. -/
def parseAmount : JSNum → Except (List String) ℚ
  | none => .error ["Expected number, received nan"]
  | some q =>
      if 0 < q then .ok q
      else .error ["Please enter an amount greater than $0."]

/-- Field check for `status : z.enum(['pending', 'paid'], { invalid_type_error: ... })`. -/
def parseStatus : Option String → Except (List String) String
  | none => .error ["Required"]
  | some s =>
      if s = "pending" ∨ s = "paid" then .ok s
      else .error ["Please select an invoice status."]

/-- Error list of a field check: empty when the field parsed. -/
def errListOf {α : Type} : Except (List String) α → List String
  | .ok _ => []
  | .error es => es

/-- `InvoiceSchema.safeParse({ customerId, amount, status })`: all three field
checks must pass; otherwise the flattened per-field errors are collected. -/
def safeParse (f : RawForm) : ParseResult :=
  match parseCustomerId f.customerId, parseAmount f.amount, parseStatus f.status with
  | .ok c, .ok a, .ok s => .success ⟨c, a, s⟩
  | rc, ra, rs => .failure ⟨errListOf rc, errListOf ra, errListOf rs⟩

/-- A value interpolated into a sql tagged template: sent to the driver as a
bound parameter, never spliced into the statement text. -/
inductive SqlParam
  | str (s : String)
  | num (q : ℚ)
deriving DecidableEq

/-- A parameterized SQL statement as built by the sql tagged template: the fixed
literal text fragments and the interpolated parameter values, kept separate. -/
structure SqlStmt where
  template : List String
  params : List SqlParam
deriving DecidableEq

/-- Observable step of a server action: the `InvoiceSchema.safeParse` call, a
SQL statement handed to the driver, a `revalidatePath` call, a `redirect` call. -/
inductive Event
  | validate
  | sqlExec (stmt : SqlStmt)
  | revalidate (path : String)
  | redirectTo (path : String)
deriving DecidableEq

/-- The exported `State` type: optional flattened field errors and an optional message. -/
structure State where
  errors : Option FieldErrors
  message : Option String
deriving DecidableEq

/-- What an action did: its event trace and its returned value.  `result = none`
models the path that falls through after `redirect` without returning a `State`. -/
structure MutationOutcome where
  events : List Event
  result : Option State
deriving DecidableEq

/-- Literal fragments of the INSERT template in `createInvoice`. -/
def insertTemplate : List String :=
  ["INSERT INTO invoices (customer_id, amount, status, date) VALUES (", ", ", ", ", ", ", ")"]

/-- Literal fragments of the UPDATE template in `updateInvoice`. -/
def updateTemplate : List String :=
  ["UPDATE invoices SET customer_id = ", ", amount = ", ", status = ", " WHERE id = ", ""]

/-- Literal fragments of the DELETE template in `deleteInvoice`. -/
def deleteTemplate : List String :=
  ["DELETE FROM invoices WHERE id = ", ""]

/-- The INSERT statement of `createInvoice` with its bound parameters. -/
def insertStmt (c : String) (cents : ℚ) (s d : String) : SqlStmt :=
  ⟨insertTemplate, [.str c, .num cents, .str s, .str d]⟩

/-- The UPDATE statement of `updateInvoice` with its bound parameters. -/
def updateStmt (c : String) (cents : ℚ) (s id : String) : SqlStmt :=
  ⟨updateTemplate, [.str c, .num cents, .str s, .str id]⟩

/-- The DELETE statement of `deleteInvoice` with its bound parameter. -/
def deleteStmt (id : String) : SqlStmt :=
  ⟨deleteTemplate, [.str id]⟩

/-- Fuelled base-2 logarithm: `log2Fuel fuel n` halves `n` until it drops below
2, so it computes the floor of log2 n whenever `fuel` bounds the number of
halvings.  The fuel makes the recursion structural, hence kernel-reducible. -/
def log2Fuel : Nat → Nat → Nat
  | 0, _ => 0
  | fuel + 1, n => if 2 ≤ n then log2Fuel fuel (n / 2) + 1 else 0

/-- Floor of log2 n (0 at 0).  `n` halvings always suffice as fuel. -/
def natLog2 (n : Nat) : Nat := log2Fuel n n

/-- Nearest integer to the nonnegative fraction a / b (b positive), ties to
even, as required by IEEE-754 round-to-nearest. -/
def roundNearestEven (a b : Nat) : Nat :=
  let quo := a / b
  let rem := a % b
  if 2 * rem < b then quo
  else if b < 2 * rem then quo + 1
  else if quo % 2 = 0 then quo else quo + 1

/-- Whether 2 ^ t is at most a / b (a, b positive), by cross-multiplying. -/
def pow2LE (a b : Nat) (t : Int) : Bool :=
  if 0 ≤ t then 2 ^ t.toNat * b ≤ a else b ≤ a * 2 ^ (-t).toNat

/-- Floor of log2 (a / b) for positive a, b: the guess from the integer logs
can be off by one either way, so both neighbours are checked exactly. -/
def ratLog2Floor (a b : Nat) : Int :=
  let g : Int := (natLog2 a : Int) - (natLog2 b : Int)
  if pow2LE a b (g + 1) then g + 1 else if pow2LE a b g then g else g - 1

/-- IEEE-754 binary64 rounding of the positive rational a / b: the value is
scaled so that a 53-bit significand covers it (exponent clamped at the
subnormal limit -1074), the significand is rounded to nearest with ties to
even, and the result is returned as an exact rational. -/
def roundDoublePos (a b : Nat) : ℚ :=
  let s0 : Int := ratLog2Floor a b - 52
  let s : Int := if s0 < -1074 then -1074 else s0
  let m : Nat := if 0 ≤ s then roundNearestEven a (b * 2 ^ s.toNat)
                 else roundNearestEven (a * 2 ^ (-s).toNat) b
  if 0 ≤ s then mkRat (m * 2 ^ s.toNat) 1 else mkRat m (2 ^ (-s).toNat)

/-- Round a rational to the nearest IEEE-754 binary64 value (round to nearest,
ties to even), the rounding JavaScript applies to every arithmetic result.
Finite doubles are represented by their exact rational values; overflow to
infinity is outside this embedding's number model, which (like `JSNum`) has no
infinities. -/
def roundDouble (q : ℚ) : ℚ :=
  if q = 0 then 0
  else if q < 0 then -(roundDoublePos q.num.natAbs q.den)
  else roundDoublePos q.num.natAbs q.den

/-- The JavaScript double product `amount * 100`: the exact rational product
(written on the numerator to keep it kernel-computable) rounded to the nearest
binary64 value.  For amounts such as the double nearest 1.1 this differs from
the exact product — `1.1 * 100` is `110.00000000000001` in JavaScript. -/
def jsMul100 (a : ℚ) : ℚ := roundDouble (mkRat (a.num * 100) a.den)

/-- `createInvoice(prevState, formData)`.  `dbOk` says whether the awaited sql
call succeeds; `today` is the value of `new Date().toISOString().split('T')[0]`,
an external clock read.  The unused `prevState` argument is omitted. -/
def createInvoice (dbOk : Bool) (today : String) (form : RawForm) : MutationOutcome :=
  match safeParse form with
  | .failure fe =>
      ⟨[.validate], some ⟨some fe, some "Missing Fields. Failed to create Invoice."⟩⟩
  | .success d =>
      let amountInCents := jsMul100 d.amount
      let stmt := insertStmt d.customerId amountInCents d.status today
      if dbOk then
        ⟨[.validate, .sqlExec stmt, .revalidate "/dashboard/invoices",
          .redirectTo "/dashboard/invoices"], none⟩
      else
        ⟨[.validate, .sqlExec stmt],
         some ⟨none, some "Database Error: Failed to create Invoice."⟩⟩

/-- `updateInvoice(id, formData)`. -/
def updateInvoice (dbOk : Bool) (id : String) (form : RawForm) : MutationOutcome :=
  match safeParse form with
  | .failure fe =>
      ⟨[.validate], some ⟨some fe, some "Missing Fields. Failed to Update Invoice."⟩⟩
  | .success d =>
      let amountInCents := jsMul100 d.amount
      let stmt := updateStmt d.customerId amountInCents d.status id
      if dbOk then
        ⟨[.validate, .sqlExec stmt, .revalidate "/dashboard/invoices",
          .redirectTo "/dashboard/invoices"], none⟩
      else
        ⟨[.validate, .sqlExec stmt],
         some ⟨none, some "Database Error: Failed to Update Invoice."⟩⟩

/-- `deleteInvoice(id)`. -/
def deleteInvoice (dbOk : Bool) (id : String) : MutationOutcome :=
  if dbOk then
    ⟨[.sqlExec (deleteStmt id), .revalidate "/dashboard/invoices"],
     some ⟨none, some "Deleted Invoice"⟩⟩
  else
    ⟨[.sqlExec (deleteStmt id)],
     some ⟨none, some "Database Error: Failed to Delete Invoice."⟩⟩

/-- Outcome of the awaited `signIn('credentials', formData)` call: it returns,
it throws an `AuthError` carrying its `type`, or it throws some other error. -/
inductive SignInOutcome
  | ok
  | authError (type : String)
  | otherError (msg : String)
deriving DecidableEq

/-- `authenticate(prevState, formData)`: delegates to `signIn('credentials', formData)`;
`Except.error` models a rethrown non-AuthError exception, `Except.ok none` the
implicit `undefined` return.  The unused `prevState` argument is omitted. -/
def authenticate {α : Type} (signIn : String → α → SignInOutcome) (formData : α) :
    Except String (Option String) :=
  match signIn "credentials" formData with
  | .ok => .ok none
  | .authError t =>
      .ok (some (if t = "CredentialsSignin"
                 then "Invalid credentials. Please try again."
                 else "Something went wrong. Please try again later."))
  | .otherError m => .error m

/-- A row of the invoices table. -/
structure InvoiceRow where
  id : String
  customerId : String
  amount : ℚ
  status : String
  date : String
deriving DecidableEq

/-- Modelled from the spec: the repository also "list[s] ... invoice records backed
by a relational table"; the listing function itself is not among the provided
source files, so it is modelled from that sentence as returning the rows of the
invoices table. -/
def fetchInvoices (invoicesTable : List InvoiceRow) : List InvoiceRow :=
  invoicesTable

/-- SQL statements an action handed to the driver, in order. -/
def sqlStmtsOf (o : MutationOutcome) : List SqlStmt :=
  o.events.filterMap fun e =>
    match e with
    | .sqlExec s => some s
    | _ => none

/-- The coerced amount is an actual number strictly greater than 0. -/
def amountPositive (f : RawForm) : Bool :=
  match f.amount with
  | some q => decide (0 < q)
  | none => false

/-- The status field is exactly the string pending or the string paid. -/
def statusValid (f : RawForm) : Bool :=
  f.status == some "pending" || f.status == some "paid"

/-- The customerId check accepts exactly a present string value. -/
theorem parseCustomerId_ok {o : Option String} {c : String}
    (h : parseCustomerId o = .ok c) : o = some c := by
  cases o <;> simp_all [parseCustomerId]

/-- The amount check accepts exactly a present number strictly greater than 0. -/
theorem parseAmount_ok {o : JSNum} {a : ℚ}
    (h : parseAmount o = .ok a) : o = some a ∧ 0 < a := by
  cases o <;> simp [parseAmount] at h
  split at h
  · cases h
    exact ⟨rfl, by assumption⟩
  · cases h

/-- The status check accepts exactly the string pending or the string paid. -/
theorem parseStatus_ok {o : Option String} {s : String}
    (h : parseStatus o = .ok s) : o = some s ∧ (s = "pending" ∨ s = "paid") := by
  cases o <;> simp [parseStatus] at h
  split at h
  · cases h
    refine ⟨rfl, by assumption⟩
  · cases h

/-- A successful parse pins every field: each validated field is the raw field,
the amount is positive, and the status is one of the two enum values. -/
theorem safeParse_success_fields {f : RawForm} {d : InvoiceData}
    (h : safeParse f = .success d) :
    f.customerId = some d.customerId ∧ f.amount = some d.amount ∧ 0 < d.amount ∧
    f.status = some d.status ∧ (d.status = "pending" ∨ d.status = "paid") := by
  rw [safeParse] at h
  cases hc : parseCustomerId f.customerId <;>
    cases ha : parseAmount f.amount <;>
      cases hs : parseStatus f.status <;>
        rw [hc, ha, hs] at h <;> simp at h
  subst h
  have hc1 := parseCustomerId_ok hc
  obtain ⟨ha1, ha2⟩ := parseAmount_ok ha
  obtain ⟨hs1, hs2⟩ := parseStatus_ok hs
  exact ⟨hc1, ha1, ha2, hs1, hs2⟩

/-- The numerator-level product inside `jsMul100` is the exact rational product
times 100, so `jsMul100 a` is the binary64 rounding of a * 100. -/
theorem jsMul100_eq (a : ℚ) : jsMul100 a = roundDouble (a * 100) := by
  unfold jsMul100
  congr 1
  rw [Rat.mkRat_eq_div]
  push_cast
  conv_rhs => rw [← Rat.num_div_den a]
  ring

/-- The SQL trace of `createInvoice`: empty on validation failure, exactly the
INSERT statement on success, for either database outcome. -/
theorem sqlStmtsOf_createInvoice (dbOk : Bool) (today : String) (form : RawForm) :
    sqlStmtsOf (createInvoice dbOk today form) =
      match safeParse form with
      | .success d => [insertStmt d.customerId (jsMul100 d.amount) d.status today]
      | .failure _ => [] := by
  cases h : safeParse form <;> cases dbOk <;>
    simp [createInvoice, h, sqlStmtsOf]

/-- The SQL trace of `updateInvoice`: empty on validation failure, exactly the
UPDATE statement on success, for either database outcome. -/
theorem sqlStmtsOf_updateInvoice (dbOk : Bool) (id : String) (form : RawForm) :
    sqlStmtsOf (updateInvoice dbOk id form) =
      match safeParse form with
      | .success d => [updateStmt d.customerId (jsMul100 d.amount) d.status id]
      | .failure _ => [] := by
  cases h : safeParse form <;> cases dbOk <;>
    simp [updateInvoice, h, sqlStmtsOf]

/-- The SQL trace of `deleteInvoice` is always exactly the DELETE statement. -/
theorem sqlStmtsOf_deleteInvoice (dbOk : Bool) (id : String) :
    sqlStmtsOf (deleteInvoice dbOk id) = [deleteStmt id] := by
  cases dbOk <;> simp [deleteInvoice, sqlStmtsOf]

/-- C1 counterexample: `deleteInvoice` is not schema-validated.  On input id
"abc" with a healthy database it hands the DELETE statement to the driver while
its trace contains no schema-validation event at all. -/
theorem deleteInvoice_not_validated :
    Event.sqlExec (deleteStmt "abc") ∈ (deleteInvoice true "abc").events ∧
    Event.validate ∉ (deleteInvoice true "abc").events := by decide

/-- C1 (amended): `createInvoice` and `updateInvoice` validate the form input
against the invoice schema before issuing any SQL statement (the validation
event opens every trace), while `deleteInvoice` issues its DELETE statement
with no schema validation of its input. -/
theorem mutations_validate_before_sql (dbOk : Bool) (today id : String) (form : RawForm) :
    (createInvoice dbOk today form).events.head? = some Event.validate ∧
    (updateInvoice dbOk id form).events.head? = some Event.validate ∧
    Event.validate ∉ (deleteInvoice dbOk id).events := by
  refine ⟨?_, ?_, ?_⟩
  · cases h : safeParse form <;> cases dbOk <;> simp [createInvoice, h]
  · cases h : safeParse form <;> cases dbOk <;> simp [updateInvoice, h]
  · cases dbOk <;> simp [deleteInvoice]

/-- C2 counterexample: a successful `deleteInvoice` revalidates the cached
invoices view but performs no redirect; it returns the message Deleted Invoice
instead. -/
theorem deleteInvoice_no_redirect :
    (deleteInvoice true "inv1").events =
      [Event.sqlExec (deleteStmt "inv1"), Event.revalidate "/dashboard/invoices"] ∧
    Event.redirectTo "/dashboard/invoices" ∉ (deleteInvoice true "inv1").events := by
  decide

/-- C2 (amended): after a successful create or update mutation the cached
invoices view is revalidated and a redirect to /dashboard/invoices occurs;
after a successful delete the view is revalidated but no redirect occurs, the
action returning the message Deleted Invoice instead. -/
theorem success_revalidates_and_redirects (today id : String) (form : RawForm)
    (d : InvoiceData) (h : safeParse form = .success d) :
    (Event.revalidate "/dashboard/invoices" ∈ (createInvoice true today form).events ∧
     Event.redirectTo "/dashboard/invoices" ∈ (createInvoice true today form).events) ∧
    (Event.revalidate "/dashboard/invoices" ∈ (updateInvoice true id form).events ∧
     Event.redirectTo "/dashboard/invoices" ∈ (updateInvoice true id form).events) ∧
    (Event.revalidate "/dashboard/invoices" ∈ (deleteInvoice true id).events ∧
     Event.redirectTo "/dashboard/invoices" ∉ (deleteInvoice true id).events ∧
     (deleteInvoice true id).result = some ⟨none, some "Deleted Invoice"⟩) := by
  refine ⟨?_, ?_, ?_⟩ <;>
    simp [createInvoice, updateInvoice, deleteInvoice, h]

/-- A sample form that passes validation, and its validated data. -/
def formOk : RawForm := ⟨some "cust-1", some 5, some "paid"⟩

/-- The validated data of `formOk`. -/
def dataOk : InvoiceData := ⟨"cust-1", 5, "paid"⟩

/-- Witness for the amended C2 theorem at a concrete validated form. -/
theorem success_revalidates_and_redirects_witness :
    safeParse formOk = .success dataOk ∧
    ((Event.revalidate "/dashboard/invoices" ∈ (createInvoice true "2024-01-01" formOk).events ∧
      Event.redirectTo "/dashboard/invoices" ∈ (createInvoice true "2024-01-01" formOk).events) ∧
     (Event.revalidate "/dashboard/invoices" ∈ (updateInvoice true "inv1" formOk).events ∧
      Event.redirectTo "/dashboard/invoices" ∈ (updateInvoice true "inv1" formOk).events) ∧
     (Event.revalidate "/dashboard/invoices" ∈ (deleteInvoice true "inv1").events ∧
      Event.redirectTo "/dashboard/invoices" ∉ (deleteInvoice true "inv1").events ∧
      (deleteInvoice true "inv1").result = some ⟨none, some "Deleted Invoice"⟩)) :=
  ⟨by decide, success_revalidates_and_redirects "2024-01-01" "inv1" formOk dataOk (by decide)⟩

/-- Cache-invalidation and redirect events of a trace. -/
def cacheOrRedirectEvents (o : MutationOutcome) : List Event :=
  o.events.filter fun e =>
    match e with
    | .revalidate _ => true
    | .redirectTo _ => true
    | _ => false

/-- C3: on any form input failing schema validation, `createInvoice` and
`updateInvoice` return the flattened per-field errors with their respective
Missing Fields messages and hand no SQL statement to the driver. -/
theorem validation_failure_state (dbOk : Bool) (today id : String) (form : RawForm)
    (fe : FieldErrors) (h : safeParse form = .failure fe) :
    createInvoice dbOk today form =
      ⟨[Event.validate], some ⟨some fe, some "Missing Fields. Failed to create Invoice."⟩⟩ ∧
    updateInvoice dbOk id form =
      ⟨[Event.validate], some ⟨some fe, some "Missing Fields. Failed to Update Invoice."⟩⟩ ∧
    sqlStmtsOf (createInvoice dbOk today form) = [] ∧
    sqlStmtsOf (updateInvoice dbOk id form) = [] := by
  refine ⟨?_, ?_, ?_, ?_⟩ <;> simp [createInvoice, updateInvoice, sqlStmtsOf, h]

/-- A sample form that fails validation on every field, and its flattened errors. -/
def formBad : RawForm := ⟨none, none, none⟩

/-- The flattened field errors of `formBad`. -/
def errsBad : FieldErrors := ⟨["Required"], ["Expected number, received nan"], ["Required"]⟩

/-- Witness for the C3 theorem at a concrete invalid form. -/
theorem validation_failure_state_witness :
    safeParse formBad = .failure errsBad ∧
    (createInvoice true "2024-01-01" formBad =
       ⟨[Event.validate], some ⟨some errsBad, some "Missing Fields. Failed to create Invoice."⟩⟩ ∧
     updateInvoice true "inv1" formBad =
       ⟨[Event.validate], some ⟨some errsBad, some "Missing Fields. Failed to Update Invoice."⟩⟩ ∧
     sqlStmtsOf (createInvoice true "2024-01-01" formBad) = [] ∧
     sqlStmtsOf (updateInvoice true "inv1" formBad) = []) :=
  ⟨by decide, validation_failure_state true "2024-01-01" "inv1" formBad errsBad (by decide)⟩

/-- C4: when the awaited SQL call throws, each mutation catches the error and
returns its Database Error message instead of propagating the exception, and
no cache invalidation or redirect occurs. -/
theorem db_error_messages (today id : String) (form : RawForm) (d : InvoiceData)
    (h : safeParse form = .success d) :
    ((createInvoice false today form).result =
       some ⟨none, some "Database Error: Failed to create Invoice."⟩ ∧
     cacheOrRedirectEvents (createInvoice false today form) = []) ∧
    ((updateInvoice false id form).result =
       some ⟨none, some "Database Error: Failed to Update Invoice."⟩ ∧
     cacheOrRedirectEvents (updateInvoice false id form) = []) ∧
    ((deleteInvoice false id).result =
       some ⟨none, some "Database Error: Failed to Delete Invoice."⟩ ∧
     cacheOrRedirectEvents (deleteInvoice false id) = []) := by
  refine ⟨⟨?_, ?_⟩, ⟨?_, ?_⟩, ⟨?_, ?_⟩⟩ <;>
    simp [createInvoice, updateInvoice, deleteInvoice, cacheOrRedirectEvents, h]

/-- Witness for the C4 theorem at a concrete validated form. -/
theorem db_error_messages_witness :
    safeParse formOk = .success dataOk ∧
    (((createInvoice false "2024-01-01" formOk).result =
        some ⟨none, some "Database Error: Failed to create Invoice."⟩ ∧
      cacheOrRedirectEvents (createInvoice false "2024-01-01" formOk) = []) ∧
     ((updateInvoice false "inv2" formOk).result =
        some ⟨none, some "Database Error: Failed to Update Invoice."⟩ ∧
      cacheOrRedirectEvents (updateInvoice false "inv2" formOk) = []) ∧
     ((deleteInvoice false "inv2").result =
        some ⟨none, some "Database Error: Failed to Delete Invoice."⟩ ∧
      cacheOrRedirectEvents (deleteInvoice false "inv2") = [])) :=
  ⟨by decide, db_error_messages "2024-01-01" "inv2" formOk dataOk (by decide)⟩

/-- C5: `authenticate` delegates the credential check to
`signIn('credentials', formData)` and maps failures: a CredentialsSignin
AuthError becomes the invalid-credentials message, any other AuthError the
generic message, a non-AuthError exception is rethrown, and a normal return
yields undefined. -/
theorem authenticate_error_mapping {α : Type} (signIn : String → α → SignInOutcome)
    (fd : α) :
    (signIn "credentials" fd = .authError "CredentialsSignin" →
      authenticate signIn fd = .ok (some "Invalid credentials. Please try again.")) ∧
    (∀ t, signIn "credentials" fd = .authError t → t ≠ "CredentialsSignin" →
      authenticate signIn fd = .ok (some "Something went wrong. Please try again later.")) ∧
    (∀ m, signIn "credentials" fd = .otherError m → authenticate signIn fd = .error m) ∧
    (signIn "credentials" fd = .ok → authenticate signIn fd = .ok none) := by
  refine ⟨?_, ?_, ?_, ?_⟩
  · intro h
    simp [authenticate, h]
  · intro t h ht
    simp [authenticate, h, ht]
  · intro m h
    simp [authenticate, h]
  · intro h
    simp [authenticate, h]

/-- Witness for the C5 theorem: each of the four signIn outcomes at a concrete call. -/
theorem authenticate_error_mapping_witness :
    authenticate (fun _ (_ : Unit) => SignInOutcome.authError "CredentialsSignin") () =
      .ok (some "Invalid credentials. Please try again.") ∧
    authenticate (fun _ (_ : Unit) => SignInOutcome.authError "CallbackRouteError") () =
      .ok (some "Something went wrong. Please try again later.") ∧
    authenticate (fun _ (_ : Unit) => SignInOutcome.otherError "boom") () =
      .error "boom" ∧
    authenticate (fun _ (_ : Unit) => SignInOutcome.ok) () = .ok none :=
  ⟨(authenticate_error_mapping _ ()).1 rfl,
   (authenticate_error_mapping _ ()).2.1 "CallbackRouteError" rfl (by decide),
   (authenticate_error_mapping _ ()).2.2.1 "boom" rfl,
   (authenticate_error_mapping _ ()).2.2.2 rfl⟩

/-- C6: every SQL statement a mutation hands to the driver carries the fixed
literal template of its action, independent of the input; user-supplied values
appear only in the bound-parameter list, never in the template text. -/
theorem sql_is_parameterized (dbOk : Bool) (today id : String) (form : RawForm) :
    (∀ s, s ∈ sqlStmtsOf (createInvoice dbOk today form) → s.template = insertTemplate) ∧
    (∀ s, s ∈ sqlStmtsOf (updateInvoice dbOk id form) → s.template = updateTemplate) ∧
    (∀ s, s ∈ sqlStmtsOf (deleteInvoice dbOk id) → s.template = deleteTemplate) := by
  refine ⟨?_, ?_, ?_⟩ <;> intro s hs
  · rw [sqlStmtsOf_createInvoice] at hs
    cases h : safeParse form <;> simp [h] at hs
    simp [hs, insertStmt]
  · rw [sqlStmtsOf_updateInvoice] at hs
    cases h : safeParse form <;> simp [h] at hs
    simp [hs, updateStmt]
  · rw [sqlStmtsOf_deleteInvoice] at hs
    simp at hs
    simp [hs, deleteStmt]

/-- Witness for the C6 theorem at concrete statements of each mutation. -/
theorem sql_is_parameterized_witness :
    (insertStmt "cust-1" (jsMul100 5) "paid" "2024-01-01").template = insertTemplate ∧
    (updateStmt "cust-1" (jsMul100 5) "paid" "inv9").template = updateTemplate ∧
    (deleteStmt "inv9").template = deleteTemplate :=
  ⟨(sql_is_parameterized true "2024-01-01" "inv9" formOk).1 _ (by
      have hOk : safeParse formOk = ParseResult.success dataOk := by decide
      rw [sqlStmtsOf_createInvoice, hOk]
      exact List.mem_singleton.mpr rfl),
   (sql_is_parameterized true "2024-01-01" "inv9" formOk).2.1 _ (by
      have hOk : safeParse formOk = ParseResult.success dataOk := by decide
      rw [sqlStmtsOf_updateInvoice, hOk]
      exact List.mem_singleton.mpr rfl),
   (sql_is_parameterized true "2024-01-01" "inv9" formOk).2.2 _ (by
      rw [sqlStmtsOf_deleteInvoice]
      exact List.mem_singleton.mpr rfl)⟩

/-- C7: the program provides the five operations — authenticate, list (modelled
from the spec), create, update, delete — the listing returning the rows of the
invoices table and each mutation issuing its corresponding SQL statement. -/
theorem five_operations_exist :
    (∀ tbl : List InvoiceRow, fetchInvoices tbl = tbl) ∧
    authenticate (fun _ (_ : Unit) => SignInOutcome.ok) () = .ok none ∧
    sqlStmtsOf (createInvoice true "2024-01-01" formOk) =
      [insertStmt dataOk.customerId (jsMul100 dataOk.amount) dataOk.status "2024-01-01"] ∧
    sqlStmtsOf (updateInvoice true "inv3" formOk) =
      [updateStmt dataOk.customerId (jsMul100 dataOk.amount) dataOk.status "inv3"] ∧
    sqlStmtsOf (deleteInvoice true "inv3") = [deleteStmt "inv3"] := by
  have hOk : safeParse formOk = ParseResult.success dataOk := by decide
  refine ⟨fun tbl => rfl, rfl, ?_, ?_, ?_⟩
  · rw [sqlStmtsOf_createInvoice, hOk]
  · rw [sqlStmtsOf_updateInvoice, hOk]
  · exact sqlStmtsOf_deleteInvoice true "inv3"

/-- A successfully parsed form has a positive numeric amount and a valid status. -/
theorem valid_of_success {f : RawForm} {d : InvoiceData}
    (h : safeParse f = .success d) :
    amountPositive f = true ∧ statusValid f = true := by
  obtain ⟨_, ha1, ha2, hs1, hs2⟩ := safeParse_success_fields h
  constructor
  · simp [amountPositive, ha1, ha2]
  · rcases hs2 with h2 | h2 <;> simp [statusValid, hs1, h2]

/-- C8: the SQL branch of `createInvoice` and `updateInvoice` is reachable only
when the coerced amount is a number strictly greater than 0 and the status is
exactly pending or paid; any input violating either condition takes the
validation-error branch and issues no SQL. -/
theorem sql_branch_precondition (dbOk : Bool) (today id : String) (form : RawForm) :
    (sqlStmtsOf (createInvoice dbOk today form) ≠ [] →
      amountPositive form = true ∧ statusValid form = true) ∧
    (sqlStmtsOf (updateInvoice dbOk id form) ≠ [] →
      amountPositive form = true ∧ statusValid form = true) ∧
    (¬(amountPositive form = true ∧ statusValid form = true) →
      (∃ fe, safeParse form = .failure fe) ∧
      sqlStmtsOf (createInvoice dbOk today form) = [] ∧
      sqlStmtsOf (updateInvoice dbOk id form) = []) := by
  refine ⟨?_, ?_, ?_⟩
  · intro hne
    rw [sqlStmtsOf_createInvoice] at hne
    cases h : safeParse form with
    | success d => exact valid_of_success h
    | failure fe => rw [h] at hne; simp at hne
  · intro hne
    rw [sqlStmtsOf_updateInvoice] at hne
    cases h : safeParse form with
    | success d => exact valid_of_success h
    | failure fe => rw [h] at hne; simp at hne
  · intro hnot
    cases h : safeParse form with
    | success d => exact absurd (valid_of_success h) hnot
    | failure fe =>
      refine ⟨⟨fe, rfl⟩, ?_, ?_⟩
      · rw [sqlStmtsOf_createInvoice, h]
      · rw [sqlStmtsOf_updateInvoice, h]

/-- Witness for the C8 theorem: a valid form reaching SQL, and an invalid form
taking the error branch with no SQL. -/
theorem sql_branch_precondition_witness :
    (amountPositive formOk = true ∧ statusValid formOk = true) ∧
    ((∃ fe, safeParse formBad = .failure fe) ∧
     sqlStmtsOf (createInvoice true "2024-01-01" formBad) = [] ∧
     sqlStmtsOf (updateInvoice true "inv4" formBad) = []) :=
  ⟨(sql_branch_precondition true "2024-01-01" "inv4" formOk).1 (by
      have hOk : safeParse formOk = ParseResult.success dataOk := by decide
      rw [sqlStmtsOf_createInvoice, hOk]
      simp),
   (sql_branch_precondition true "2024-01-01" "inv4" formBad).2.2 (by decide)⟩

/-- The binary64 value nearest to 1.1: significand 4953959590107546 at
exponent -52 (2 to the 52 is 4503599627370496). -/
def amount11 : ℚ := mkRat 4953959590107546 4503599627370496

/-- A form whose validated amount is the double nearest to 1.1. -/
def form11 : RawForm := ⟨some "cust-1", some amount11, some "paid"⟩

/-- The validated data of `form11`. -/
def data11 : InvoiceData := ⟨"cust-1", amount11, "paid"⟩

/-- C9 counterexample: at the validated amount double(1.1), the stored amount
parameter is the rounded double product 7740561859543041 / 2 to the 46
(110.00000000000001…), which is not 100 times the validated amount — the
exact product needs 59 significand bits, so binary64 multiplication rounds. -/
theorem createInvoice_cents_not_exact :
    roundDouble (mkRat 11 10) = amount11 ∧
    safeParse form11 = .success data11 ∧
    sqlStmtsOf (createInvoice true "2024-01-15" form11) =
      [insertStmt "cust-1" (jsMul100 amount11) "paid" "2024-01-15"] ∧
    jsMul100 amount11 = mkRat 7740561859543041 70368744177664 ∧
    jsMul100 amount11 ≠ 100 * amount11 := by
  have hp : safeParse form11 = ParseResult.success data11 := by decide
  refine ⟨by decide, hp, ?_, by decide, ?_⟩
  · rw [sqlStmtsOf_createInvoice, hp]
    rfl
  · have h2 : (100 : ℚ) * amount11 = mkRat 61924494876344325 562949953421312 := by
      rw [amount11, Rat.mkRat_eq_div, Rat.mkRat_eq_div]
      norm_num
    rw [h2]
    decide

/-- C9 (amended): for every validated input the INSERT and UPDATE statements
store the IEEE-754 binary64 product of the validated amount and 100 (the exact
product rounded to the nearest double, ties to even) in the amount parameter,
and store the customerId and status of the form unchanged. -/
theorem amount_stored_in_cents (dbOk : Bool) (today id : String) (form : RawForm)
    (d : InvoiceData) (h : safeParse form = .success d) :
    sqlStmtsOf (createInvoice dbOk today form) =
      [⟨insertTemplate,
        [.str d.customerId, .num (roundDouble (d.amount * 100)), .str d.status, .str today]⟩] ∧
    sqlStmtsOf (updateInvoice dbOk id form) =
      [⟨updateTemplate,
        [.str d.customerId, .num (roundDouble (d.amount * 100)), .str d.status, .str id]⟩] ∧
    form.customerId = some d.customerId ∧ form.status = some d.status ∧
    form.amount = some d.amount := by
  obtain ⟨hc, ha, _, hs, _⟩ := safeParse_success_fields h
  refine ⟨?_, ?_, hc, hs, ha⟩
  · simp only [sqlStmtsOf_createInvoice, h]
    simp [insertStmt, jsMul100_eq]
  · simp only [sqlStmtsOf_updateInvoice, h]
    simp [updateStmt, jsMul100_eq]

/-- Witness for the amended C9 theorem at a concrete validated form. -/
theorem amount_stored_in_cents_witness :
    safeParse formOk = .success dataOk ∧
    (sqlStmtsOf (createInvoice true "2024-01-01" formOk) =
       [⟨insertTemplate,
         [.str dataOk.customerId, .num (roundDouble (dataOk.amount * 100)), .str dataOk.status,
          .str "2024-01-01"]⟩] ∧
     sqlStmtsOf (updateInvoice true "inv5" formOk) =
       [⟨updateTemplate,
         [.str dataOk.customerId, .num (roundDouble (dataOk.amount * 100)), .str dataOk.status,
          .str "inv5"]⟩] ∧
     formOk.customerId = some dataOk.customerId ∧ formOk.status = some dataOk.status ∧
     formOk.amount = some dataOk.amount) :=
  ⟨by decide, amount_stored_in_cents true "2024-01-01" "inv5" formOk dataOk (by decide)⟩

/-- The signIn call threw an AuthError. -/
def isAuthError : SignInOutcome → Bool
  | .authError _ => true
  | _ => false

/-- C10: when signIn completes without throwing, authenticate returns undefined
(no message); a defined string result occurs only when signIn threw an
AuthError. -/
theorem authenticate_success_undefined {α : Type} (signIn : String → α → SignInOutcome)
    (fd : α) :
    (signIn "credentials" fd = .ok → authenticate signIn fd = .ok none) ∧
    (∀ m, authenticate signIn fd = .ok (some m) →
      isAuthError (signIn "credentials" fd) = true) := by
  constructor
  · intro h
    simp [authenticate, h]
  · intro m h
    cases hs : signIn "credentials" fd <;> simp [authenticate, hs] at h
    simp [hs, isAuthError]

/-- Witness for the C10 theorem: a normal signIn return and an AuthError throw. -/
theorem authenticate_success_undefined_witness :
    authenticate (fun _ (_ : Unit) => SignInOutcome.ok) () = .ok none ∧
    isAuthError ((fun (_ : String) (_ : Unit) => SignInOutcome.authError "AccessDenied")
      "credentials" ()) = true :=
  ⟨(authenticate_success_undefined (fun _ (_ : Unit) => SignInOutcome.ok) ()).1 rfl,
   (authenticate_success_undefined
      (fun _ (_ : Unit) => SignInOutcome.authError "AccessDenied") ()).2
     "Something went wrong. Please try again later." (by simp [authenticate])⟩

end Invoices
